import Mathlib

/-!
Verification of the data pipeline of `consultaitp.py`, a single-file
interactive app that loads two yearly "ITP" datasets (2025 and 2024) from
zipped semicolon-separated CSV files, caches them, lets the user pick a
state and an entity through cascading dropdowns, filters the rows by the
two exact-match keys, and serializes the filtered rows to an in-memory
spreadsheet for download.

The embedding below is a shallow model of the script:
* a pandas `DataFrame` becomes `DataFrame` (ordered column names plus rows
  of optional string cells; `none` models `NaN`);
* `load_itp_data` becomes an explicit function of an `Env` describing the
  on-disk cache state and the outcome of the two HTTP fetches, returning a
  `LoadResult` that also records which effects happened (fetch attempts,
  cache writes) and which `st.error` messages were emitted;
* the `@st.cache_resource(ttl=86400)` memoization becomes explicit state
  passing in `cache_resource_call`;
* the Excel writer becomes a `Workbook` value (sheet name, header, rows).
-/

/-! ## Python string primitives

`charListLe` models Python's `<=` on strings: lexicographic comparison by
code point. `listContainsSub`/`strContains` model Python's `in` operator
on strings (substring containment). Both are structurally recursive so
that the kernel can evaluate them on concrete inputs. -/

/-- Lexicographic comparison of character lists by code point, as Python
compares strings. -/
def charListLe : List Char → List Char → Bool
  | [], _ => true
  | _ :: _, [] => false
  | a :: as, b :: bs => if a < b then true else if a = b then charListLe as bs else false

/-- Python's `a <= b` on strings: lexicographic by code point. -/
def strLe (a b : String) : Bool := charListLe a.data b.data

/-- The ordering relation used to model Python's `sorted` on strings. -/
def StrLe (a b : String) : Prop := strLe a b = true

instance : DecidableRel StrLe := fun a b => inferInstanceAs (Decidable (strLe a b = true))

/-- Does `sub` occur at the head of the second list? -/
def headMatch : List Char → List Char → Bool
  | [], _ => true
  | _ :: _, [] => false
  | a :: as, b :: bs => a = b && headMatch as bs

/-- Does `sub` occur somewhere in the list (Python's `sub in hay`)? -/
def listContainsSub (sub : List Char) : List Char → Bool
  | [] => headMatch sub []
  | b :: bs => headMatch sub (b :: bs) || listContainsSub sub bs

/-- Python's `sub in hay` for strings. -/
def strContains (hay sub : String) : Bool := listContainsSub sub.data hay.data

/-- Split a character list on a separator character; models the line and
field splitting performed by the CSV reader. -/
def splitOnChar (sep : Char) : List Char → List (List Char)
  | [] => [[]]
  | c :: cs =>
    let r := splitOnChar sep cs
    if c = sep then [] :: r
    else
      match r with
      | [] => [[c]]
      | g :: gs => (c :: g) :: gs

/-- Split a string on a separator character. -/
def splitStr (sep : Char) (s : String) : List String :=
  (splitOnChar sep s.data).map String.mk

/-! ## Data model

A `DataFrame` is the shallow embedding of a pandas dataframe: ordered
column names and rows of cells, where a cell is `Option String` and `none`
models `NaN` (missing value). -/

/-- A cell of a dataframe; `none` models pandas `NaN`. -/
abbrev Cell := Option String

/-- Shallow embedding of a pandas `DataFrame`: ordered column names plus
rows of optional string cells. -/
structure DataFrame where
  cols : List String
  rows : List (List Cell)
deriving DecidableEq

/-- Index of a column name in a column list (first occurrence). -/
def colIndex (cols : List String) (c : String) : Option Nat :=
  match cols with
  | [] => none
  | c2 :: rest => if c2 = c then some 0 else (colIndex rest c).map (· + 1)

/-- Value of column `c` in row `r` of dataframe `df` (models `df[c]` read
at one row); `none` when the column is absent or the row is short. -/
def DataFrame.cell (df : DataFrame) (r : List Cell) (c : String) : Cell :=
  match colIndex df.cols c with
  | some i => r.getD i none
  | none => none

/-- Pandas `df.empty`: true iff the dataframe has no rows. -/
def DataFrame.isEmpty (df : DataFrame) : Bool := df.rows.isEmpty

/-- Models `df[c].dropna()`: the non-missing values of column `c`, in row
order. -/
def DataFrame.colValues (df : DataFrame) (c : String) : List String :=
  df.rows.filterMap (fun r => df.cell r c)

/-! ## Filtering (the generate-downloads filter)

`filter_rows` embeds the filtering block of the script:

    df_filtrado = pd.DataFrame()
    if 'estado' in df.columns and 'entidade' in df.columns:
        df_filtrado = df[(df['estado'] == sigla) & (df['entidade'] == entidade)].copy()
-/

/-- The two-key equality filter applied per year by the generate-downloads
handler; when either key column is absent the result stays the initial
empty `pd.DataFrame()`. -/
def filter_rows (df : DataFrame) (sigla entidade : String) : DataFrame :=
  if "estado" ∈ df.cols ∧ "entidade" ∈ df.cols then
    { cols := df.cols
      rows := df.rows.filter (fun r =>
        decide (df.cell r "estado" = some sigla ∧ df.cell r "entidade" = some entidade)) }
  else { cols := [], rows := [] }

/-! ## Helper lemmas about columns and cells -/

theorem colIndex_some_mem (cols : List String) (c : String) (i : Nat)
    (h : colIndex cols c = some i) : c ∈ cols := by
  induction cols generalizing i with
  | nil => simp [colIndex] at h
  | cons x xs ih =>
    by_cases hx : x = c
    · subst hx; exact List.mem_cons_self _ _
    · simp only [colIndex, if_neg hx, Option.map_eq_some'] at h
      rcases h with ⟨j, hj, _⟩
      exact List.mem_cons_of_mem _ (ih j hj)

theorem cell_some_mem_cols {df : DataFrame} {r : List Cell} {c v : String}
    (h : df.cell r c = some v) : c ∈ df.cols := by
  unfold DataFrame.cell at h
  rcases hidx : colIndex df.cols c with _ | i
  · rw [hidx] at h; cases h
  · exact colIndex_some_mem _ _ _ hidx

theorem filter_rows_eq_of_cols {df : DataFrame} (sigla entidade : String)
    (h : "estado" ∈ df.cols ∧ "entidade" ∈ df.cols) :
    filter_rows df sigla entidade =
      { cols := df.cols
        rows := df.rows.filter (fun r =>
          decide (df.cell r "estado" = some sigla ∧ df.cell r "entidade" = some entidade)) } := by
  unfold filter_rows
  rw [if_pos h]

theorem cell_congr_cols {df df2 : DataFrame} (h : df2.cols = df.cols)
    (r : List Cell) (c : String) : df2.cell r c = df.cell r c := by
  unfold DataFrame.cell
  rw [h]

/-- C1: for every (state, entity) pair that occurs together in a row of a
loaded yearly dataset, the generate-downloads filter returns a non-empty
table for that year, and every row of the filtered table has its `estado`
column equal to the selected state and its `entidade` column equal to the
selected entity. -/
theorem filter_rows_present_pair (df : DataFrame) (sigla entidade : String)
    (r : List Cell) (hr : r ∈ df.rows)
    (h1 : df.cell r "estado" = some sigla)
    (h2 : df.cell r "entidade" = some entidade) :
    (filter_rows df sigla entidade).isEmpty = false ∧
    ∀ r2 ∈ (filter_rows df sigla entidade).rows,
      (filter_rows df sigla entidade).cell r2 "estado" = some sigla ∧
      (filter_rows df sigla entidade).cell r2 "entidade" = some entidade := by
  have hcols : "estado" ∈ df.cols ∧ "entidade" ∈ df.cols :=
    ⟨cell_some_mem_cols h1, cell_some_mem_cols h2⟩
  rw [filter_rows_eq_of_cols sigla entidade hcols]
  constructor
  · have hmem : r ∈ df.rows.filter (fun r =>
        decide (df.cell r "estado" = some sigla ∧ df.cell r "entidade" = some entidade)) :=
      List.mem_filter.mpr ⟨hr, by simp [h1, h2]⟩
    unfold DataFrame.isEmpty
    simp only [List.isEmpty_eq_false_iff_exists_mem]
    exact ⟨r, hmem⟩
  · intro r2 hr2
    have hpred := (List.mem_filter.mp hr2).2
    simp only [decide_eq_true_eq] at hpred
    exact hpred

/-- Example dataframe from the spec's scenario section. -/
def dfScenario : DataFrame :=
  { cols := ["estado", "entidade", "valor"]
    rows := [[some "PR", some "PREFEITURA X", some "10"],
             [some "SP", some "PREFEITURA Y", some "20"]] }

/-- Witness for C1: in the scenario dataframe the pair (PR, PREFEITURA X)
occurs, and the filter result is non-empty. -/
theorem filter_rows_present_pair_witness :
    (filter_rows dfScenario "PR" "PREFEITURA X").isEmpty = false :=
  (filter_rows_present_pair dfScenario "PR" "PREFEITURA X"
    [some "PR", some "PREFEITURA X", some "10"]
    (by decide) (by decide) (by decide)).1

/-! ## Spreadsheet export (`gerar_arquivo_excel`)

The script serializes a dataframe with

    with pd.ExcelWriter(output, engine='openpyxl') as writer:
        df.to_excel(writer, sheet_name='Dados ITP', index=False)

`Workbook` is the shallow embedding of the produced single-sheet workbook:
a sheet name, a header row, and data rows. `to_excel` models pandas
`DataFrame.to_excel`, including what the `index` flag would do (with
`index := true` an extra index column would be prepended), so that the
script's choice `index=False` is visible in the model. -/

/-- A single-sheet spreadsheet workbook: sheet name, header row, data
rows. -/
structure Workbook where
  sheet_name : String
  header : List String
  rows : List (List Cell)
deriving DecidableEq

/-- Pandas `df.to_excel(..., sheet_name, index)`: with `index = true` an
index column is prepended; with `index = false` the sheet holds exactly
the column names as header and the rows as data. -/
def to_excel (df : DataFrame) (sheet : String) (index : Bool) : Workbook :=
  if index then
    { sheet_name := sheet
      header := "" :: df.cols
      rows := df.rows.enum.map (fun p => some (toString p.1) :: p.2) }
  else
    { sheet_name := sheet
      header := df.cols
      rows := df.rows }

/-- The script's `gerar_arquivo_excel`: write the dataframe to an
in-memory workbook, sheet `Dados ITP`, without the index column. -/
def gerar_arquivo_excel (df : DataFrame) : Workbook :=
  to_excel df "Dados ITP" false

/-- Re-reading an exported workbook as a dataframe (models
`pd.read_excel` on the produced buffer). -/
def read_excel (wb : Workbook) : DataFrame :=
  { cols := wb.header, rows := wb.rows }

/-! ## Download filenames

The script computes

    nome_safe = entidade_selecionada.replace('/', '_')[:40]
    nome = f"questionario_itp_{ano}_{nome_safe}.xlsx"

`str.replace` with a one-character pattern is the character-wise map, and
`[:40]` takes the first 40 characters. -/

/-- The script's `nome_safe`: entity name with `/` replaced by `_`,
truncated to 40 characters. -/
def nome_safe (entidade : String) : String :=
  String.mk ((entidade.data.map (fun c => if c = '/' then '_' else c)).take 40)

/-- The download filename offered for one year. -/
def nome_arquivo (ano : String) (entidade : String) : String :=
  "questionario_itp_" ++ ano ++ "_" ++ nome_safe entidade ++ ".xlsx"

/-! ## The generate-downloads handler

`gerar_downloads` embeds the `btn_gerar` block: filter both years, report
the user-facing empty-result message and stop when both filters are
empty, otherwise build one workbook-plus-filename entry per non-empty
year. The Python block is wrapped in `try/except`, so no exception
escapes to the user; the embedding is a total function accordingly. -/

/-- One generated download entry (`arquivos_gerados[ano]` in the
script). -/
structure Arquivo where
  ano : String
  data : Workbook
  nome : String
  linhas : Nat
  colunas : Nat
deriving DecidableEq

/-- Outcome of pressing the generate button: either the user-facing
empty-result message that stops the request path, or the generated
files. -/
inductive GenerateOutcome where
  | emptyResult (msg : String)
  | files (arquivos : List Arquivo)
deriving DecidableEq

/-- The generate-downloads handler applied to the two loaded yearly
dataframes and the selected state and entity. -/
def gerar_downloads (df25 df24 : DataFrame) (sigla entidade : String) : GenerateOutcome :=
  let f25 := filter_rows df25 sigla entidade
  let f24 := filter_rows df24 sigla entidade
  if f25.isEmpty && f24.isEmpty then
    .emptyResult "❌ Nenhum dado encontrado para essa combinação"
  else
    let a25 : List Arquivo :=
      if f25.isEmpty then []
      else [{ ano := "2025", data := gerar_arquivo_excel f25,
              nome := nome_arquivo "2025" entidade,
              linhas := f25.rows.length, colunas := f25.cols.length }]
    let a24 : List Arquivo :=
      if f24.isEmpty then []
      else [{ ano := "2024", data := gerar_arquivo_excel f24,
              nome := nome_arquivo "2024" entidade,
              linhas := f24.rows.length, colunas := f24.cols.length }]
    .files (a25 ++ a24)

theorem filter_rows_absent_pair (df : DataFrame) (sigla entidade : String)
    (h : ∀ r ∈ df.rows,
      ¬(df.cell r "estado" = some sigla ∧ df.cell r "entidade" = some entidade)) :
    (filter_rows df sigla entidade).isEmpty = true := by
  unfold filter_rows
  by_cases hc : "estado" ∈ df.cols ∧ "entidade" ∈ df.cols
  · rw [if_pos hc]
    unfold DataFrame.isEmpty
    simp only [List.isEmpty_iff, List.filter_eq_nil_iff, decide_eq_true_eq]
    exact h
  · rw [if_neg hc]
    rfl

/-- C2: for every (state, entity) pair absent from both yearly datasets,
filtering returns an empty result for both years, and the handler reports
the user-facing empty-result message that terminates the request path;
the handler is a total function of its inputs, so no exception escapes to
the user. -/
theorem gerar_downloads_absent_pair (df25 df24 : DataFrame) (sigla entidade : String)
    (h25 : ∀ r ∈ df25.rows,
      ¬(df25.cell r "estado" = some sigla ∧ df25.cell r "entidade" = some entidade))
    (h24 : ∀ r ∈ df24.rows,
      ¬(df24.cell r "estado" = some sigla ∧ df24.cell r "entidade" = some entidade)) :
    (filter_rows df25 sigla entidade).isEmpty = true ∧
    (filter_rows df24 sigla entidade).isEmpty = true ∧
    gerar_downloads df25 df24 sigla entidade =
      .emptyResult "❌ Nenhum dado encontrado para essa combinação" := by
  have e25 := filter_rows_absent_pair df25 sigla entidade h25
  have e24 := filter_rows_absent_pair df24 sigla entidade h24
  refine ⟨e25, e24, ?_⟩
  unfold gerar_downloads
  simp only [e25, e24, Bool.and_self, if_true]

/-- Witness for C2: the pair (PR, PREFEITURA Y) occurs in neither
scenario dataframe, and generating reports the empty-result message. -/
theorem gerar_downloads_absent_pair_witness :
    gerar_downloads dfScenario dfScenario "PR" "PREFEITURA Y" =
      .emptyResult "❌ Nenhum dado encontrado para essa combinação" :=
  (gerar_downloads_absent_pair dfScenario dfScenario "PR" "PREFEITURA Y"
    (by decide) (by decide)).2.2

/-! ## State map and state dropdown (`todos_estados`, `format_func`)

The script builds the set of distinct states from both dataframes,
dropping missing values, and sorts it:

    todos_estados = set()
    if 'estado' in df_2025.columns:
        todos_estados.update(df_2025['estado'].dropna().unique())
    if 'estado' in df_2024.columns:
        todos_estados.update(df_2024['estado'].dropna().unique())
    todos_estados = sorted(list(todos_estados))

and displays each option through

    format_func=lambda x: f"{ESTADOS_MAP.get(x, x)} ({x})" if x else "-- Selecione um estado --"
-/

/-- The fixed 27-entry map from state code to display name
(`ESTADOS_MAP`). -/
def ESTADOS_MAP : List (String × String) :=
  [("AC", "Acre"), ("AL", "Alagoas"), ("AP", "Amapá"), ("AM", "Amazonas"),
   ("BA", "Bahia"), ("CE", "Ceará"), ("DF", "Distrito Federal"), ("ES", "Espírito Santo"),
   ("GO", "Goiás"), ("MA", "Maranhão"), ("MT", "Mato Grosso"), ("MS", "Mato Grosso do Sul"),
   ("MG", "Minas Gerais"), ("PA", "Pará"), ("PB", "Paraíba"), ("PR", "Paraná"),
   ("PE", "Pernambuco"), ("PI", "Piauí"), ("RJ", "Rio de Janeiro"), ("RN", "Rio Grande do Norte"),
   ("RS", "Rio Grande do Sul"), ("RO", "Rondônia"), ("RR", "Roraima"), ("SC", "Santa Catarina"),
   ("SP", "São Paulo"), ("SE", "Sergipe"), ("TO", "Tocantins")]

/-- The state selectbox display label (`format_func`). -/
def format_estado (x : String) : String :=
  if x = "" then "-- Selecione um estado --"
  else ((ESTADOS_MAP.lookup x).getD x) ++ " (" ++ x ++ ")"

/-- The sorted, de-duplicated list of states offered in the dropdown
(`todos_estados`); Python's `sorted(list(set(...)))` is modelled by
`dedup` followed by a sort under `StrLe`. -/
def todos_estados (df25 df24 : DataFrame) : List String :=
  let s25 := if "estado" ∈ df25.cols then df25.colValues "estado" else []
  let s24 := if "estado" ∈ df24.cols then df24.colValues "estado" else []
  (s25 ++ s24).dedup.insertionSort StrLe

/-! ## CSV parsing (`pd.read_csv(..., sep=";")`)

The loader parses the extracted CSV text with a semicolon separator; the
header row gives the column names verbatim and empty fields become
missing values (`NaN`). Blank lines are skipped, as `pd.read_csv` does. -/

/-- Parse semicolon-separated CSV text into a dataframe; empty fields
become missing cells. -/
def parse_csv (text : String) : DataFrame :=
  match splitStr '\n' text with
  | [] => { cols := [], rows := [] }
  | header :: rest =>
    { cols := splitStr ';' header
      rows := (rest.filter (fun l => decide (l ≠ ""))).map
        (fun l => (splitStr ';' l).map (fun f => if f = "" then none else some f)) }

/-! ## Order lemmas for `StrLe` -/

theorem charListLe_total : ∀ as bs : List Char, charListLe as bs = true ∨ charListLe bs as = true := by
  intro as
  induction as with
  | nil => intro bs; left; rfl
  | cons x xs ih =>
    intro bs
    cases bs with
    | nil => right; rfl
    | cons y ys =>
      rcases lt_trichotomy x y with h | h | h
      · left; simp [charListLe, h]
      · subst h
        rcases ih ys with h2 | h2
        · left; simp [charListLe, h2]
        · right; simp [charListLe, h2]
      · right; simp [charListLe, h]

theorem charListLe_trans : ∀ as bs cs : List Char,
    charListLe as bs = true → charListLe bs cs = true → charListLe as cs = true := by
  intro as
  induction as with
  | nil => intro bs cs _ _; rfl
  | cons x xs ih =>
    intro bs cs h1 h2
    cases bs with
    | nil => simp [charListLe] at h1
    | cons y ys =>
      cases cs with
      | nil => simp [charListLe] at h2
      | cons z zs =>
        rcases lt_trichotomy x y with hxy | hxy | hxy
        · rcases lt_trichotomy y z with hyz | hyz | hyz
          · simp [charListLe, lt_trans hxy hyz]
          · subst hyz; simp [charListLe, hxy]
          · rw [charListLe, if_neg (asymm hyz), if_neg (ne_of_gt hyz)] at h2
            cases h2
        · subst hxy
          rcases lt_trichotomy x z with hyz | hyz | hyz
          · simp [charListLe, hyz]
          · subst hyz
            rw [charListLe, if_neg (lt_irrefl x), if_pos rfl] at h1 h2 ⊢
            exact ih ys zs h1 h2
          · rw [charListLe, if_neg (asymm hyz), if_neg (ne_of_gt hyz)] at h2
            cases h2
        · rw [charListLe, if_neg (asymm hxy), if_neg (ne_of_gt hxy)] at h1
          cases h1

instance : IsTotal String StrLe :=
  ⟨fun a b => charListLe_total a.data b.data⟩

instance : IsTrans String StrLe :=
  ⟨fun a b c h1 h2 => charListLe_trans a.data b.data c.data h1 h2⟩

/-! ## Non-emptiness of parsed cell values -/

theorem getD_some_mem {r : List Cell} {i : Nat} {v : String}
    (h : r.getD i none = some v) : some v ∈ r := by
  rw [List.getD_eq_getElem?_getD] at h
  rcases hg : r[i]? with _ | c
  · rw [hg] at h; cases h
  · rw [hg] at h
    simp only [Option.getD_some] at h
    subst h
    exact List.getElem?_mem hg

theorem parse_csv_cell_ne_empty (t : String) (r : List Cell) (c v : String)
    (hr : r ∈ (parse_csv t).rows) (hc : (parse_csv t).cell r c = some v) : v ≠ "" := by
  unfold DataFrame.cell at hc
  rcases hidx : colIndex (parse_csv t).cols c with _ | i
  · rw [hidx] at hc; cases hc
  · rw [hidx] at hc
    have hv : some v ∈ r := getD_some_mem hc
    unfold parse_csv at hr
    rcases hsplit : splitStr '\n' t with _ | ⟨header, rest⟩
    · rw [hsplit] at hr; cases hr
    · rw [hsplit] at hr
      simp only [List.mem_map] at hr
      rcases hr with ⟨l, _, rfl⟩
      simp only [List.mem_map] at hv
      rcases hv with ⟨f, _, hf⟩
      by_cases hfe : f = ""
      · rw [if_pos hfe] at hf; cases hf
      · rw [if_neg hfe] at hf
        intro hve
        exact hfe (by rw [← Option.some.injEq, hf, hve])

theorem todos_estados_mem_ne_empty (t25 t24 : String) (x : String)
    (hx : x ∈ todos_estados (parse_csv t25) (parse_csv t24)) : x ≠ "" := by
  unfold todos_estados at hx
  rw [List.mem_insertionSort, List.mem_dedup, List.mem_append] at hx
  have hside : ∀ t : String,
      x ∈ (if "estado" ∈ (parse_csv t).cols then (parse_csv t).colValues "estado" else []) →
      x ≠ "" := by
    intro t hmem
    by_cases hcol : "estado" ∈ (parse_csv t).cols
    · rw [if_pos hcol] at hmem
      unfold DataFrame.colValues at hmem
      rw [List.mem_filterMap] at hmem
      rcases hmem with ⟨r, hr, hc⟩
      exact parse_csv_cell_ne_empty t r "estado" x hr hc
    · rw [if_neg hcol] at hmem
      cases hmem
  rcases hx with h | h
  · exact hside t25 h
  · exact hside t24 h

/-- C3: for every pair of loaded yearly datasets (results of parsing the
two CSV files), the computed list of distinct states is sorted ascending
on the raw state code, contains no duplicates, and every code present in
the data but absent from the fixed 27-code map is displayed with its raw
code in place of a state name. -/
theorem todos_estados_sorted_nodup_display (t25 t24 : String) :
    List.Sorted StrLe (todos_estados (parse_csv t25) (parse_csv t24)) ∧
    (todos_estados (parse_csv t25) (parse_csv t24)).Nodup ∧
    ∀ x ∈ todos_estados (parse_csv t25) (parse_csv t24),
      ESTADOS_MAP.lookup x = none → format_estado x = x ++ " (" ++ x ++ ")" := by
  refine ⟨List.sorted_insertionSort StrLe _, ?_, ?_⟩
  · exact (List.perm_insertionSort StrLe _).symm.nodup (List.nodup_dedup _)
  · intro x hx hlookup
    have hne : x ≠ "" := todos_estados_mem_ne_empty t25 t24 x hx
    unfold format_estado
    rw [if_neg hne, hlookup, Option.getD_none]

/-- Witness for C3: parsing a dataset whose only state code `ZZ` is not
in the 27-code map, the dropdown label for `ZZ` falls back to the raw
code. -/
theorem todos_estados_sorted_nodup_display_witness :
    format_estado "ZZ" = "ZZ (ZZ)" := by
  have h := (todos_estados_sorted_nodup_display "estado;entidade\nZZ;FOO" "x").2.2
  exact h "ZZ" (by decide) (by decide)

/-! ## The loader (`load_itp_data`)

`load_itp_data` reads both Parquet snapshots when BOTH exist; otherwise
it downloads the 2025 zip, then the 2024 zip, extracts the first member
whose name contains the fixed expected CSV filename of each year, parses
both CSV texts, and persists both snapshots. All of this sits in one
`try:` block, so the first failing step aborts the whole load with
`return None, None, False` after an `st.error` message; the other year is
never attempted independently.

The embedding makes the ambient effects explicit: `Env` carries the cache
state and the outcome of each HTTP GET, and `LoadResult` records, besides
the returned triple, which fetches were attempted, whether the snapshots
were written, and the `st.error` messages emitted. -/

/-- Outcome of `requests.get(url, timeout=600)` followed by
`raise_for_status()`: the list of zip members `(filename, decoded text)`
on success, or one of the three failure modes the script handles
(`Timeout`, `ConnectionError`, or any other exception such as an HTTP
error status). -/
inductive FetchResult where
  | ok (members : List (String × String))
  | httpError
  | timeout
  | connError
deriving DecidableEq

/-- Ambient state read by `load_itp_data`: the content of each Parquet
snapshot when that file exists, and the outcome each HTTP GET would
have. -/
structure Env where
  cache_2025 : Option DataFrame
  cache_2024 : Option DataFrame
  fetch_2025 : FetchResult
  fetch_2024 : FetchResult
deriving DecidableEq

/-- Result of `load_itp_data`: the returned triple
`(df_2025, df_2024, sucesso)` plus the observable effects — whether each
HTTP GET was attempted, whether the Parquet snapshots were written, and
the `st.error` messages emitted. -/
structure LoadResult where
  df_2025 : Option DataFrame
  df_2024 : Option DataFrame
  sucesso : Bool
  fetched_2025 : Bool
  fetched_2024 : Bool
  wrote_cache : Bool
  errors : List String
deriving DecidableEq

/-- Error message of the `requests.exceptions.Timeout` handler. -/
def MSG_TIMEOUT : String := "⏱️ Timeout. Arquivo muito grande. Tente novamente em 10 minutos."

/-- Error message of the `requests.exceptions.ConnectionError` handler. -/
def MSG_CONN : String := "🔌 Erro de conexão. Verifique internet."

/-- Error message of the generic `except Exception` handler for an HTTP
error status raised by `raise_for_status()` (the script formats
`f"❌ Erro: {str(e)}"`). -/
def MSG_HTTP : String := "❌ Erro: HTTPError"

/-- Error message shown when a required CSV member is missing from its
archive. -/
def MSG_CSV_NAO_ENCONTRADO : String := "❌ Arquivos CSV não encontrados"

/-- The expected 2025 CSV member name. -/
def CSV_2025 : String := "respostas_avaliacoes_pntp_2025.csv"

/-- The expected 2024 CSV member name. -/
def CSV_2024 : String := "respostas_avaliacoes_pntp_2024.csv"

/-- The first zip member whose name contains `sub`, as the script's
`for file_info in zip.filelist: if sub in file_info.filename: ... break`
loop selects it; `none` when no member matches. -/
def findMember (members : List (String × String)) (sub : String) : Option String :=
  match members with
  | [] => none
  | (name, content) :: rest =>
    if strContains name sub then some content else findMember rest sub

/-- Result of the `if not csv_2025 or not csv_2024` branch: no tables,
failure, both fetches already attempted, nothing persisted. -/
def csvNaoEncontrado : LoadResult :=
  { df_2025 := none, df_2024 := none, sucesso := false,
    fetched_2025 := true, fetched_2024 := true, wrote_cache := false,
    errors := [MSG_CSV_NAO_ENCONTRADO] }

/-- The rebuild path of `load_itp_data` (cache miss): download 2025, then
2024, extract both CSV members, parse both, persist both snapshots. The
first failing step aborts everything. -/
def rebuild_itp (f25 f24 : FetchResult) : LoadResult :=
  match f25 with
  | .timeout =>
    { df_2025 := none, df_2024 := none, sucesso := false,
      fetched_2025 := true, fetched_2024 := false, wrote_cache := false,
      errors := [MSG_TIMEOUT] }
  | .connError =>
    { df_2025 := none, df_2024 := none, sucesso := false,
      fetched_2025 := true, fetched_2024 := false, wrote_cache := false,
      errors := [MSG_CONN] }
  | .httpError =>
    { df_2025 := none, df_2024 := none, sucesso := false,
      fetched_2025 := true, fetched_2024 := false, wrote_cache := false,
      errors := [MSG_HTTP] }
  | .ok m25 =>
    match f24 with
    | .timeout =>
      { df_2025 := none, df_2024 := none, sucesso := false,
        fetched_2025 := true, fetched_2024 := true, wrote_cache := false,
        errors := [MSG_TIMEOUT] }
    | .connError =>
      { df_2025 := none, df_2024 := none, sucesso := false,
        fetched_2025 := true, fetched_2024 := true, wrote_cache := false,
        errors := [MSG_CONN] }
    | .httpError =>
      { df_2025 := none, df_2024 := none, sucesso := false,
        fetched_2025 := true, fetched_2024 := true, wrote_cache := false,
        errors := [MSG_HTTP] }
    | .ok m24 =>
      match findMember m25 CSV_2025, findMember m24 CSV_2024 with
      | some c25, some c24 =>
        if c25 = "" ∨ c24 = "" then csvNaoEncontrado
        else
          { df_2025 := some (parse_csv c25), df_2024 := some (parse_csv c24),
            sucesso := true, fetched_2025 := true, fetched_2024 := true,
            wrote_cache := true, errors := [] }
      | some _, none => csvNaoEncontrado
      | none, _ => csvNaoEncontrado

/-- The cached loader body: use both snapshots when both files exist,
otherwise rebuild everything from the network. -/
def load_itp_data (env : Env) : LoadResult :=
  match env.cache_2025, env.cache_2024 with
  | some d25, some d24 =>
    { df_2025 := some d25, df_2024 := some d24, sucesso := true,
      fetched_2025 := false, fetched_2024 := false, wrote_cache := false,
      errors := [] }
  | some _, none => rebuild_itp env.fetch_2025 env.fetch_2024
  | none, _ => rebuild_itp env.fetch_2025 env.fetch_2024

/-- Error message of the top-level load gate. -/
def MSG_LOAD_FAIL : String := "❌ Não foi possível carregar os dados."

/-- Outcome of the top-level load gate: either the page proceeds with
both dataframes, or `st.error` plus `st.stop()`. -/
inductive AppOutcome where
  | hardStop (msg : String)
  | proceed (df_2025 df_2024 : DataFrame)
deriving DecidableEq

/-- The script's gate after calling the loader:
`if not sucesso or df_2025 is None or df_2024 is None: st.error(...); st.stop()`. -/
def app_load (env : Env) : AppOutcome :=
  let r := load_itp_data env
  match r.df_2025, r.df_2024 with
  | some d25, some d24 =>
    if r.sucesso then .proceed d25 d24 else .hardStop MSG_LOAD_FAIL
  | some _, none => .hardStop MSG_LOAD_FAIL
  | none, _ => .hardStop MSG_LOAD_FAIL

/-! ## C4: single-year failure handling

The claim says a failed year leaves the other year attempted
independently and one available year degrades gracefully. The code does
the opposite: both downloads sit in one `try:` block, so a 2025 failure
aborts before the 2024 download is even attempted, and any single-year
failure returns `(None, None, False)`, which the gate turns into a hard
stop. -/

/-- Concrete environment for C4: no snapshots, the 2025 download fails
with an HTTP error, while the 2024 download would succeed with a valid
archive. -/
def envC4 : Env :=
  { cache_2025 := none, cache_2024 := none,
    fetch_2025 := .httpError,
    fetch_2024 := .ok [("respostas_avaliacoes_pntp_2024.csv", "estado;entidade\nPR;X")] }

/-- Counterexample to C4 as stated: with the 2025 build failing and the
2024 data available, the loader never attempts the 2024 download, returns
no table for 2024 either, and the app hard-stops instead of degrading to
the one available year. -/
theorem c4_claim_false :
    (load_itp_data envC4).fetched_2024 = false ∧
    (load_itp_data envC4).df_2024 = none ∧
    (load_itp_data envC4).sucesso = false ∧
    app_load envC4 = .hardStop MSG_LOAD_FAIL := by
  refine ⟨rfl, rfl, rfl, rfl⟩

theorem load_itp_data_cache_miss (env : Env)
    (h : env.cache_2025 = none ∨ env.cache_2024 = none) :
    load_itp_data env = rebuild_itp env.fetch_2025 env.fetch_2024 := by
  rcases env with ⟨c25, c24, f25, f24⟩
  rcases h with h | h
  · simp only at h; subst h; rfl
  · simp only at h; subst h
    cases c25 <;> rfl

theorem app_load_eq_hardStop (env : Env)
    (h : (load_itp_data env).df_2025 = none) :
    app_load env = .hardStop MSG_LOAD_FAIL := by
  simp only [app_load]
  rw [h]

theorem rebuild_itp_all_or_nothing (g25 g24 : FetchResult) :
    ((rebuild_itp g25 g24).df_2025.isSome = (rebuild_itp g25 g24).df_2024.isSome) ∧
    ((rebuild_itp g25 g24).fetched_2024 = true → (rebuild_itp g25 g24).fetched_2025 = true) ∧
    ((rebuild_itp g25 g24).sucesso = false →
      ((rebuild_itp g25 g24).df_2025 = none ∧ (rebuild_itp g25 g24).df_2024 = none)) := by
  cases g25 with
  | timeout => exact ⟨rfl, fun _ => rfl, fun _ => ⟨rfl, rfl⟩⟩
  | connError => exact ⟨rfl, fun _ => rfl, fun _ => ⟨rfl, rfl⟩⟩
  | httpError => exact ⟨rfl, fun _ => rfl, fun _ => ⟨rfl, rfl⟩⟩
  | ok m25 =>
    cases g24 with
    | timeout => exact ⟨rfl, fun _ => rfl, fun _ => ⟨rfl, rfl⟩⟩
    | connError => exact ⟨rfl, fun _ => rfl, fun _ => ⟨rfl, rfl⟩⟩
    | httpError => exact ⟨rfl, fun _ => rfl, fun _ => ⟨rfl, rfl⟩⟩
    | ok m24 =>
      rcases hm25 : findMember m25 CSV_2025 with _ | c25v
      · simp [rebuild_itp, hm25, csvNaoEncontrado]
      · rcases hm24 : findMember m24 CSV_2024 with _ | c24v
        · simp [rebuild_itp, hm25, hm24, csvNaoEncontrado]
        · by_cases he : c25v = "" ∨ c24v = ""
          · simp [rebuild_itp, hm25, hm24, if_pos he, csvNaoEncontrado]
          · simp [rebuild_itp, hm25, hm24, if_neg he]

/-- C4 (amended): the loader is all-or-nothing. It never returns exactly
one year's table; the 2024 download is attempted only after the 2025
download succeeded; and whenever the load is not a success the app
hard-stops — there is no graceful degradation to a single year. -/
theorem load_itp_data_all_or_nothing (env : Env) :
    ((load_itp_data env).df_2025.isSome = (load_itp_data env).df_2024.isSome) ∧
    ((load_itp_data env).fetched_2024 = true → (load_itp_data env).fetched_2025 = true) ∧
    ((load_itp_data env).sucesso = false → app_load env = .hardStop MSG_LOAD_FAIL) := by
  rcases hc25 : env.cache_2025 with _ | d25
  · have hload := load_itp_data_cache_miss env (Or.inl hc25)
    have h := rebuild_itp_all_or_nothing env.fetch_2025 env.fetch_2024
    rw [hload]
    refine ⟨h.1, h.2.1, fun hs => ?_⟩
    exact app_load_eq_hardStop env (by rw [hload]; exact (h.2.2 hs).1)
  · rcases hc24 : env.cache_2024 with _ | d24
    · have hload := load_itp_data_cache_miss env (Or.inr hc24)
      have h := rebuild_itp_all_or_nothing env.fetch_2025 env.fetch_2024
      rw [hload]
      refine ⟨h.1, h.2.1, fun hs => ?_⟩
      exact app_load_eq_hardStop env (by rw [hload]; exact (h.2.2 hs).1)
    · have hload : load_itp_data env =
        { df_2025 := some d25, df_2024 := some d24, sucesso := true,
          fetched_2025 := false, fetched_2024 := false, wrote_cache := false,
          errors := [] } := by
        rcases env with ⟨c25, c24, f25, f24⟩
        simp only at hc25 hc24
        subst hc25; subst hc24; rfl
      rw [hload]
      exact ⟨rfl, fun h => h, fun h => absurd h (by simp)⟩

/-- Witness for C4 (amended): in the C4 environment the load is not a
success and the app hard-stops. -/
theorem load_itp_data_all_or_nothing_witness :
    app_load envC4 = .hardStop MSG_LOAD_FAIL :=
  (load_itp_data_all_or_nothing envC4).2.2 rfl

/-! ## C5: archive member selection

The zip member loop picks the first member whose name contains the fixed
expected CSV filename; when none matches, the script only shows the fixed
message `"❌ Arquivos CSV não encontrados"` — the list of archive members
is not part of any emitted diagnostic. -/

/-- Concrete environment for C5: the 2025 archive has a single member
`leia-me.txt` that does not match the expected CSV name. -/
def envC5 : Env :=
  { cache_2025 := none, cache_2024 := none,
    fetch_2025 := .ok [("leia-me.txt", "conteudo")],
    fetch_2024 := .ok [("respostas_avaliacoes_pntp_2024.csv", "estado;entidade\nPR;X")] }

/-- Counterexample to C5 as stated: when no member matches, the only
emitted diagnostic is the fixed message, and that message does not
mention the archive's sole member name — the member list is not
surfaced. -/
theorem c5_claim_false :
    (load_itp_data envC5).errors = [MSG_CSV_NAO_ENCONTRADO] ∧
    strContains MSG_CSV_NAO_ENCONTRADO "leia-me.txt" = false := by
  exact ⟨rfl, by decide⟩

/-- C5 (amended): the archive reader selects the first archive member
whose name contains the required substring (the fixed expected CSV
filename for that year); if no member of the 2025 archive matches (both
downloads having succeeded), the load fails and the only diagnostic is
the fixed message `"❌ Arquivos CSV não encontrados"`, without the member
list. -/
theorem findMember_first_match_and_error :
    (∀ (members : List (String × String)) (sub c : String),
      findMember members sub = some c →
      ∃ pre name rest, members = pre ++ (name, c) :: rest ∧
        strContains name sub = true ∧ ∀ m ∈ pre, strContains m.1 sub = false) ∧
    (∀ (env : Env) (m25 m24 : List (String × String)),
      (env.cache_2025 = none ∨ env.cache_2024 = none) →
      env.fetch_2025 = .ok m25 → env.fetch_2024 = .ok m24 →
      findMember m25 CSV_2025 = none →
      (load_itp_data env).sucesso = false ∧
      (load_itp_data env).errors = [MSG_CSV_NAO_ENCONTRADO]) := by
  constructor
  · intro members
    induction members with
    | nil => intro sub c h; cases h
    | cons m rest ih =>
      intro sub c h
      rcases m with ⟨name, content⟩
      by_cases hc : strContains name sub = true
      · rw [findMember, if_pos hc, Option.some.injEq] at h
        subst h
        exact ⟨[], name, rest, rfl, hc, fun m hm => absurd hm (List.not_mem_nil m)⟩
      · rw [findMember, if_neg hc] at h
        rcases ih sub c h with ⟨pre, nm, rst, heq, hnm, hpre⟩
        refine ⟨(name, content) :: pre, nm, rst, by rw [heq]; rfl, hnm, ?_⟩
        intro m hm
        rcases List.mem_cons.mp hm with hm | hm
        · subst hm; exact Bool.not_eq_true _ ▸ eq_false_of_ne_true hc
        · exact hpre m hm
  · intro env m25 m24 hc h25 h24 hnone
    rw [load_itp_data_cache_miss env hc, h25, h24]
    simp [rebuild_itp, hnone, csvNaoEncontrado]

/-- Witness for C5 (amended): in the C5 environment the load fails with
the fixed message. -/
theorem findMember_first_match_and_error_witness :
    (load_itp_data envC5).sucesso = false ∧
    (load_itp_data envC5).errors = [MSG_CSV_NAO_ENCONTRADO] :=
  findMember_first_match_and_error.2 envC5
    [("leia-me.txt", "conteudo")]
    [("respostas_avaliacoes_pntp_2024.csv", "estado;entidade\nPR;X")]
    (Or.inl rfl) rfl rfl (by decide)

/-! ## C6: the in-process memoization (`@st.cache_resource(ttl=86400)`)

The decorator memoizes the loader's return value in process memory; a
second call within the 24-hour window returns the stored object without
running the decorated body, hence without any HTTP fetch. The memo is
modelled by explicit state passing: an optional entry `(storedAt, value)`
threaded through `cache_resource_call`, whose third component records
whether the decorated body ran. -/

/-- The decorator's time-to-live, in seconds. -/
def TTL_SECONDS : Nat := 86400

/-- One call of the memoized loader at time `now` with memo state
`entry`: returns the value, the new memo entry, and whether the decorated
body (`load_itp_data`, including any HTTP fetch) was executed. -/
def cache_resource_call (now : Nat) (entry : Option (Nat × LoadResult)) (env : Env) :
    LoadResult × (Nat × LoadResult) × Bool :=
  match entry with
  | some (t0, v) =>
    if now - t0 < TTL_SECONDS then (v, (t0, v), false)
    else (load_itp_data env, (now, load_itp_data env), true)
  | none => (load_itp_data env, (now, load_itp_data env), true)

/-- C6: calling the cached loader twice within the 24-hour freshness
window returns identical tables for both years (the very same memoized
`LoadResult`), and the second call does not run the loader body at all —
in particular it performs no HTTP fetch. -/
theorem cache_resource_second_call_memoized (env : Env) (t0 t1 : Nat)
    (h : t1 - t0 < TTL_SECONDS) :
    (cache_resource_call t1 (some (cache_resource_call t0 none env).2.1) env).1 =
      (cache_resource_call t0 none env).1 ∧
    (cache_resource_call t1 (some (cache_resource_call t0 none env).2.1) env).2.2 = false := by
  have h1 : (cache_resource_call t0 none env).2.1 = (t0, load_itp_data env) := rfl
  rw [h1]
  simp [cache_resource_call, h]

/-- Witness for C6: a second call 100 seconds after the first returns the
memoized value without running the loader. -/
theorem cache_resource_second_call_memoized_witness :
    (cache_resource_call 100 (some (cache_resource_call 0 none envC5).2.1) envC5).2.2 = false :=
  (cache_resource_second_call_memoized envC5 0 100 (by decide)).2

/-- C7: export produces a single-sheet workbook named `Dados ITP` whose
header row is the table's column names in original order, with one data
row per table row and no index column; re-reading the workbook yields
back exactly the input table (column names, row count and cell
values). -/
theorem gerar_arquivo_excel_roundtrip (df : DataFrame) :
    (gerar_arquivo_excel df).sheet_name = "Dados ITP" ∧
    (gerar_arquivo_excel df).header = df.cols ∧
    (gerar_arquivo_excel df).rows = df.rows ∧
    read_excel (gerar_arquivo_excel df) = df :=
  ⟨rfl, rfl, rfl, rfl⟩

/-- C8: for every selected entity and year, the offered download filename
is the deterministic function of the year and the sanitized entity name:
the entity part is the entity name with `/` replaced by `_` truncated to
40 characters, and the whole filename contains no path separator. -/
theorem nome_arquivo_deterministic_safe (ano entidade : String)
    (h : ano = "2025" ∨ ano = "2024") :
    nome_arquivo ano entidade =
      "questionario_itp_" ++ ano ++ "_" ++ nome_safe entidade ++ ".xlsx" ∧
    (nome_safe entidade).length ≤ 40 ∧
    ∀ c ∈ (nome_arquivo ano entidade).data, c ≠ '/' := by
  refine ⟨rfl, ?_, ?_⟩
  · show (List.take 40 (entidade.data.map (fun c => if c = '/' then '_' else c))).length ≤ 40
    exact List.length_take_le 40 _
  · intro c hc
    have hd : (nome_arquivo ano entidade).data =
        "questionario_itp_".data ++ (ano.data ++ ("_".data ++
          ((nome_safe entidade).data ++ ".xlsx".data))) := by
      simp [nome_arquivo, String.data_append]
    rw [hd] at hc
    simp only [List.mem_append] at hc
    rcases hc with hc | hc | hc | hc | hc
    · revert hc
      revert c
      decide
    · rcases h with h | h <;> subst h <;> revert hc <;> revert c <;> decide
    · revert hc
      revert c
      decide
    · have hdata : (nome_safe entidade).data =
          List.take 40 (entidade.data.map (fun c => if c = '/' then '_' else c)) := rfl
      rw [hdata] at hc
      have hc2 := List.mem_map.mp (List.take_subset 40 _ hc)
      rcases hc2 with ⟨d, _, hd2⟩
      by_cases hds : d = '/'
      · rw [if_pos hds] at hd2
        subst hd2
        decide
      · rw [if_neg hds] at hd2
        subst hd2
        exact hds
    · revert hc
      revert c
      decide

/-- Witness for C8: for the sample entity name `A/B` and year 2025 the
filename formula holds. -/
theorem nome_arquivo_deterministic_safe_witness :
    (nome_safe "PREFEITURA A/B").length ≤ 40 :=
  (nome_arquivo_deterministic_safe "2025" "PREFEITURA A/B" (Or.inl rfl)).2.1

/-! ## C9: loaded tables are never mutated

Pandas dataframes are mutable heap objects, so read-only-ness of the
loaded tables is a statement about the heap: the model keeps all
dataframes in an explicit store (list of dataframes addressed by index)
and `filter_copy` models `df[mask].copy()`: it allocates the filtered
copy at a fresh index and touches nothing else. The theorem shows every
pre-existing entry of the store — in particular the two loaded yearly
tables — is unchanged by a filtering operation, and that the filter
result lives at a fresh index distinct from its source. -/

/-- The filtering step `df[(df['estado'] == s) & (df['entidade'] == e)].copy()`
acting on a store of dataframes: returns the updated store and the index
of the freshly allocated copy. -/
def filter_copy (store : List DataFrame) (i : Nat) (sigla entidade : String) :
    List DataFrame × Nat :=
  (store ++ [filter_rows (store.getD i { cols := [], rows := [] }) sigla entidade],
   store.length)

/-- C9: once loaded, a yearly dataset is never mutated by filtering:
`filter_copy` leaves every existing store entry (the source tables)
bit-for-bit unchanged, and places the filtered copy at a fresh index
distinct from the source's. -/
theorem filter_copy_preserves_store (store : List DataFrame) (i : Nat)
    (sigla entidade : String) (h : i < store.length) :
    (∀ k, k < store.length →
      ((filter_copy store i sigla entidade).1)[k]? = store[k]?) ∧
    (filter_copy store i sigla entidade).2 ≠ i ∧
    ((filter_copy store i sigla entidade).1)[(filter_copy store i sigla entidade).2]? =
      some (filter_rows (store.getD i { cols := [], rows := [] }) sigla entidade) := by
  refine ⟨?_, ?_, ?_⟩
  · intro k hk
    show (store ++ [_])[k]? = store[k]?
    rw [List.getElem?_append, if_pos hk]
  · intro he
    exact absurd (he ▸ h) (lt_irrefl _)
  · exact List.getElem?_concat_length _ _

/-- Witness for C9: filtering the scenario table stored at index 0 leaves
the stored table unchanged. -/
theorem filter_copy_preserves_store_witness :
    ((filter_copy [dfScenario] 0 "PR" "PREFEITURA X").1)[0]? = some dfScenario := by
  have h := (filter_copy_preserves_store [dfScenario] 0 "PR" "PREFEITURA X"
    (by decide)).1 0 (by decide)
  rw [h]
  rfl

/-! ## C10: the on-disk snapshot cache is all-or-nothing -/

theorem rebuild_itp_effects (g25 g24 : FetchResult) :
    (rebuild_itp g25 g24).fetched_2025 = true ∧
    ((rebuild_itp g25 g24).sucesso = true →
      (rebuild_itp g25 g24).fetched_2024 = true ∧
      (rebuild_itp g25 g24).wrote_cache = true) := by
  cases g25 with
  | timeout => exact ⟨rfl, fun h => nomatch h⟩
  | connError => exact ⟨rfl, fun h => nomatch h⟩
  | httpError => exact ⟨rfl, fun h => nomatch h⟩
  | ok m25 =>
    cases g24 with
    | timeout => exact ⟨rfl, fun h => nomatch h⟩
    | connError => exact ⟨rfl, fun h => nomatch h⟩
    | httpError => exact ⟨rfl, fun h => nomatch h⟩
    | ok m24 =>
      rcases hm25 : findMember m25 CSV_2025 with _ | c25v
      · simp [rebuild_itp, hm25, csvNaoEncontrado]
      · rcases hm24 : findMember m24 CSV_2024 with _ | c24v
        · simp [rebuild_itp, hm25, hm24, csvNaoEncontrado]
        · by_cases he : c25v = "" ∨ c24v = ""
          · simp [rebuild_itp, hm25, hm24, if_pos he, csvNaoEncontrado]
          · simp [rebuild_itp, hm25, hm24, if_neg he]

/-- C10: the on-disk snapshot cache is used only when the snapshot files
for BOTH years exist. When exactly one snapshot exists, the loader
behaves exactly as if no snapshot existed at all: it re-downloads
(attempting the 2025 GET unconditionally), and on success it re-parses
and re-persists both years. -/
theorem load_itp_data_partial_cache_ignored (env : Env)
    (h : env.cache_2025.isSome ≠ env.cache_2024.isSome) :
    load_itp_data env =
      load_itp_data { env with cache_2025 := none, cache_2024 := none } ∧
    (load_itp_data env).fetched_2025 = true ∧
    ((load_itp_data env).sucesso = true →
      (load_itp_data env).fetched_2024 = true ∧
      (load_itp_data env).wrote_cache = true) := by
  have hmiss : env.cache_2025 = none ∨ env.cache_2024 = none := by
    rcases h25 : env.cache_2025 with _ | d25
    · exact Or.inl rfl
    · rcases h24 : env.cache_2024 with _ | d24
      · exact Or.inr rfl
      · rw [h25, h24] at h
        exact absurd rfl h
  have hload := load_itp_data_cache_miss env hmiss
  have hload2 : load_itp_data { env with cache_2025 := none, cache_2024 := none } =
      rebuild_itp env.fetch_2025 env.fetch_2024 :=
    load_itp_data_cache_miss _ (Or.inl rfl)
  rw [hload, hload2]
  exact ⟨rfl, (rebuild_itp_effects _ _).1, (rebuild_itp_effects _ _).2⟩

/-- Concrete environment for C10: only the 2025 snapshot exists; both
downloads would succeed. -/
def envC10 : Env :=
  { cache_2025 := some dfScenario, cache_2024 := none,
    fetch_2025 := .ok [("respostas_avaliacoes_pntp_2025.csv", "estado;entidade\nPR;X")],
    fetch_2024 := .ok [("respostas_avaliacoes_pntp_2024.csv", "estado;entidade\nPR;X")] }

/-- Witness for C10: with only the 2025 snapshot present the loader
ignores it, behaves as with no snapshots, and re-persists both years. -/
theorem load_itp_data_partial_cache_ignored_witness :
    load_itp_data envC10 =
      load_itp_data { envC10 with cache_2025 := none, cache_2024 := none } ∧
    (load_itp_data envC10).wrote_cache = true := by
  have h := load_itp_data_partial_cache_ignored envC10 (by decide)
  exact ⟨h.1, (h.2.2 (by decide)).2⟩

/-! ## Agreement of `StrLe` with the lexicographic string order

`StrLe` was defined to mirror Python's code-point comparison; the lemmas
below check it against Lean's own lexicographic order on `String`, so the
sortedness statements above really are "ascending" in the usual sense. -/

theorem charListLe_iff_not_lex (as : List Char) :
    ∀ bs : List Char, charListLe as bs = true ↔ ¬ List.Lex (· < ·) bs as := by
  induction as with
  | nil =>
    intro bs
    exact iff_of_true rfl (List.Lex.not_nil_right _ _)
  | cons x xs ih =>
    intro bs
    cases bs with
    | nil =>
      exact iff_of_false Bool.false_ne_true (fun hn => hn List.Lex.nil)
    | cons y ys =>
      show (if x < y then true else if x = y then charListLe xs ys else false) = true ↔
        ¬ List.Lex (· < ·) (y :: ys) (x :: xs)
      rcases lt_trichotomy x y with h | h | h
      · rw [if_pos h]
        refine iff_of_true rfl ?_
        intro hlex
        cases hlex with
        | cons hl => exact absurd h (lt_irrefl _)
        | rel hr => exact absurd (lt_trans h hr) (lt_irrefl _)
      · subst h
        rw [if_neg (lt_irrefl x), if_pos rfl, ih ys]
        constructor
        · intro hn hlex
          exact hn (List.Lex.cons_iff.mp hlex)
        · intro hn hlex
          exact hn (List.Lex.cons hlex)
      · rw [if_neg (asymm h), if_neg (ne_of_gt h)]
        exact iff_of_false Bool.false_ne_true (fun hn => hn (List.Lex.rel h))

theorem strLe_iff_le (a b : String) : strLe a b = true ↔ a ≤ b := by
  rw [strLe, charListLe_iff_not_lex]
  constructor
  · intro h
    refine not_lt.mp (fun hl => h ?_)
    rwa [String.lt_iff_toList_lt] at hl
  · intro h hl
    exact absurd (String.lt_iff_toList_lt.mpr hl) (not_lt.mpr h)

/-- The distinct-states list is sorted ascending also with respect to
Lean's own lexicographic order on `String`. -/
theorem todos_estados_sorted_le (df25 df24 : DataFrame) :
    List.Sorted (· ≤ ·) (todos_estados df25 df24) := by
  have h := List.sorted_insertionSort StrLe
    ((if "estado" ∈ df25.cols then df25.colValues "estado" else []) ++
      (if "estado" ∈ df24.cols then df24.colValues "estado" else [])).dedup
  refine List.Pairwise.imp ?_ h
  intro a b hab
  exact (strLe_iff_le a b).mp hab
